import Mathlib

/-!
Verification of the plugmein backend (`back-end/app.py`).

The development shallowly embeds the two stateful subsystems of the backend:

* the transcript Chunk Store and the feedback-fusion pipeline
  (`/transcribe-chunk` and `/gemini-feedback` routes), and
* the Socket.IO realtime control channel (`join_session`,
  `toggle_recording`, `recording_state_update`, `disconnect` handlers).

Python `dict`s become functions into `Option`, Python `float` arithmetic is
modelled exactly over `ℚ` (all quantities appearing in the score computation
are exactly representable), Python strings are modelled as Lean `String`s
with the Python primitives (`strip`, `split`, `int(...)`, `str.split()`)
re-implemented structurally over `List Char` so that they are executable.
External collaborators (Whisper, the three Gemini calls) are oracles passed
as explicit arguments; fallible calls are `Except` values.
-/

namespace App

/-! ### Python string primitives (executable models) -/

/-- Model of Python `str.strip()`: drop whitespace from both ends. -/
def pyStrip (l : List Char) : List Char :=
  ((l.dropWhile Char.isWhitespace).reverse.dropWhile Char.isWhitespace).reverse

/-- Auxiliary for `pySplitChar`: accumulates the current field (reversed). -/
def pySplitAux (sep : Char) : List Char → List Char → List (List Char)
  | [], cur => [cur.reverse]
  | c :: cs, cur =>
    if c = sep then cur.reverse :: pySplitAux sep cs []
    else pySplitAux sep cs (c :: cur)

/-- Model of Python `str.split(sep)` for a one-character separator:
splits at every occurrence, keeping empty fields (`"".split(c) = [""]`). -/
def pySplitChar (sep : Char) (l : List Char) : List (List Char) :=
  pySplitAux sep l []

/-- Auxiliary for `pyDigits?`: accumulate a decimal value over digit chars. -/
def pyDigitsAux : List Char → ℕ → Option ℕ
  | [], acc => some acc
  | c :: cs, acc =>
    if c.isDigit then pyDigitsAux cs (acc * 10 + (c.toNat - 48)) else none

/-- Parse a non-empty all-digit string to a natural number. -/
def pyDigits? : List Char → Option ℕ
  | [] => none
  | l => pyDigitsAux l 0

/-- Model of Python `int(s)` on strings: strip whitespace, optional sign,
then decimal digits; `none` models the `ValueError` raised otherwise. -/
def pyIntParse? (l : List Char) : Option ℤ :=
  match pyStrip l with
  | '-' :: rest => (pyDigits? rest).map (fun n => -(n : ℤ))
  | '+' :: rest => (pyDigits? rest).map (fun n => (n : ℤ))
  | t => (pyDigits? t).map (fun n => (n : ℤ))

/-- Auxiliary for `pyWords`: split on whitespace runs, dropping empty
tokens, accumulating the current word (reversed). -/
def pyWordsAux : List Char → List Char → List String
  | [], [] => []
  | [], cur => [String.mk cur.reverse]
  | c :: cs, cur =>
    if c.isWhitespace then
      (if cur = [] then pyWordsAux cs [] else String.mk cur.reverse :: pyWordsAux cs [])
    else pyWordsAux cs (c :: cur)

/-- Model of Python `s.split()` (no separator): the maximal non-whitespace
runs of `s`, in order. -/
def pyWords (s : String) : List String := pyWordsAux s.data []

/-- Model of Python `int(f)` on a float/rational: truncation toward zero. -/
def pyInt (q : ℚ) : ℤ := if 0 ≤ q then ⌊q⌋ else ⌈q⌉

/-! ### Data model: transcript chunks (app.py lines 40-42, 111-124) -/

/-- One Whisper segment, as stored in a chunk's `segments` list.  The
`start`/`end` keys are optional because `gemini_feedback` guards each with
`if "start" in segment_copy` before shifting it. -/
structure Segment where
  start : Option ℚ
  «end» : Option ℚ
  text : String
deriving DecidableEq

/-- The per-chunk record built by `transcribe_chunk` (app.py lines 116-121). -/
structure ChunkData where
  chunk_index : ℤ
  text : String
  segments : List Segment
  start_time : ℤ
deriving DecidableEq

/-- `transcript_storage`: Python dict from session id to list of chunks;
`none` models a key that is absent from the dict. -/
abbrev Store := String → Option (List ChunkData)

/-- Pointwise update of a string-keyed map (Python `d[k] = v` / `del d[k]`). -/
def updMap {β : Type _} (f : String → β) (k : String) (v : β) : String → β :=
  fun x => if x = k then v else f x

/-- The store with no sessions. -/
def emptyStore : Store := fun _ => none

/-! ### Chunk ingest: the `/transcribe-chunk` route (app.py lines 72-141) -/

/-- The parts of a `/transcribe-chunk` request the handler inspects.
`chunkIndex`/`sessionId` are `none` when the form field is missing. -/
structure ChunkRequest where
  hasAudio : Bool
  filename : String
  chunkIndex : Option ℤ
  sessionId : Option String
deriving DecidableEq

/-- Response of `/transcribe-chunk`: an error body with its HTTP status, or
the success body `{chunkIndex, text, success}`. -/
inductive ChunkResp where
  | err (message : String) (code : ℕ)
  | ok (chunkIndex : ℤ) (text : String)
deriving DecidableEq

/-- `transcribe_chunk` (app.py lines 72-141).  `convertOk` is the result of
`convert_to_wav`; `whisperText`/`whisperSegments` are the Whisper oracle's
transcription of the chunk (`result["text"]`, `result["segments"]`). -/
def transcribe_chunk (st : Store) (req : ChunkRequest) (convertOk : Bool)
    (whisperText : String) (whisperSegments : List Segment) : ChunkResp × Store :=
  if req.hasAudio = false then (.err "No audio file provided" 400, st)
  else
    let chunk_index := req.chunkIndex.getD 0
    let session_id := req.sessionId.getD "default"
    if req.filename = "" then (.err "Empty filename" 400, st)
    else if convertOk = false then (.err "Failed to convert audio" 500, st)
    else
      let text := String.mk (pyStrip whisperText.data)
      let chunk_data : ChunkData :=
        { chunk_index := chunk_index, text := text, segments := whisperSegments,
          start_time := chunk_index * 30 }
      let prev := (st session_id).getD []
      (.ok chunk_index text, updMap st session_id (some (prev ++ [chunk_data])))

/-! ### Assembly (app.py lines 161-179) -/

/-- Shift one segment's `start`/`end` by the chunk's base offset
(app.py lines 173-178). -/
def shiftSegment (chunk_start : ℚ) (s : Segment) : Segment :=
  { s with start := s.start.map (fun x => chunk_start + x),
           «end» := s.«end».map (fun x => chunk_start + x) }

/-- `chunks.sort(key=lambda x: x["chunk_index"])`: Python's stable sort,
ascending by `chunk_index`; insertion sort on `≤`-by-key is stable, so it
computes the same list. -/
def sortChunks (l : List ChunkData) : List ChunkData :=
  l.insertionSort (fun a b => a.chunk_index ≤ b.chunk_index)

/-- The sort key order is total. -/
instance instChunkKeyTotal : IsTotal ChunkData (fun a b => a.chunk_index ≤ b.chunk_index) :=
  ⟨fun _ _ => Int.le_total _ _⟩

/-- The sort key order is transitive. -/
instance instChunkKeyTrans : IsTrans ChunkData (fun a b => a.chunk_index ≤ b.chunk_index) :=
  ⟨fun _ _ _ h1 h2 => le_trans h1 h2⟩

/-- The assembly step of `gemini_feedback` (app.py lines 161-179): sort the
session's chunks by index, join the texts with single spaces, and shift each
chunk's segments by its stored `start_time`. -/
def assembleTranscript (l : List ChunkData) : String × List Segment :=
  let chunks := sortChunks l
  (String.intercalate " " (chunks.map (fun c => c.text)),
   chunks.flatMap (fun c => c.segments.map (shiftSegment ((c.start_time : ℚ)))))

/-! ### Question-analysis parsing (app.py lines 256-273) -/

/-- The `(question_count, question_quality, question_insights)` parse state. -/
structure QParse where
  question_count : ℤ
  question_quality : ℤ
  question_insights : String
deriving DecidableEq

/-- The `for line in lines` parse loop (app.py lines 262-270).  A failing
`int(...)` or a missing `split(':')[1]` raises inside the loop and is caught
by the surrounding `try`, keeping whatever fields were already assigned. -/
def parseQLines : List (List Char) → QParse → QParse
  | [], acc => acc
  | line :: rest, acc =>
    if ("QUESTION_COUNT:".data).isPrefixOf line then
      match (pySplitChar ':' line)[1]? with
      | none => acc
      | some part =>
        match pyIntParse? (pyStrip part) with
        | none => acc
        | some n => parseQLines rest { acc with question_count := n }
    else if ("QUALITY_SCORE:".data).isPrefixOf line then
      match (pySplitChar ':' line)[1]? with
      | none => acc
      | some part =>
        match pyIntParse? (pyStrip part) with
        | none => acc
        | some n => parseQLines rest { acc with question_quality := max 0 (min 100 n) }
    else if ("INSIGHTS:".data).isPrefixOf line then
      parseQLines rest
        { acc with question_insights :=
            String.mk (pyStrip ((line.dropWhile (fun c => c ≠ ':')).drop 1)) }
    else parseQLines rest acc

/-- Parsing of the question-analysis response (app.py lines 256-273),
starting from the documented defaults `(0, 50, "Analyzing questions...")`. -/
def parseQuestionAnalysis (t : String) : QParse :=
  parseQLines (pySplitChar '\n' (pyStrip t.data)) ⟨0, 50, "Analyzing questions..."⟩

/-! ### Score fusion (app.py lines 276-308) -/

/-- `faceMetrics` as sent by the client; each key may be absent
(`face_metrics.get(k, default)` supplies the default). -/
structure FaceMetrics where
  avgCuriosity : Option ℚ
  avgAttention : Option ℚ
  avgVibe : Option ℚ
  trend : Option String
deriving DecidableEq

/-- The raw weighted component sum of app.py lines 279-300:
face (40%) + question quality (30%) + transcript quality (20%) + trend (10%),
before the `int(...)` conversion, the `+ 10` boost and the clamp. -/
def rawScoreOf (face_metrics : FaceMetrics) (question_quality : ℤ) (transcript : String) : ℚ :=
  let avg_face_metrics : ℚ :=
    (face_metrics.avgCuriosity.getD 0 + face_metrics.avgAttention.getD 0 +
      face_metrics.avgVibe.getD 0) / 3
  let face_component := avg_face_metrics * 0.40
  let question_component := (question_quality : ℚ) * 0.30
  let transcript_length_score : ℚ := min 100 ((transcript.length : ℚ) / 20)
  let words_count := (pyWords transcript).length
  let word_density_score : ℚ := min 100 (if 0 < words_count then (words_count : ℚ) / 2 else 0)
  let transcript_component := ((transcript_length_score + word_density_score) / 2) * 0.20
  let trend := face_metrics.trend.getD "stable"
  let trend_score : ℚ := if trend = "improving" then 80 else if trend = "stable" then 50 else 30
  let trend_component := trend_score * 0.10
  face_component + question_component + transcript_component + trend_component

/-- The presentation-score computation of app.py lines 276-308:
`int(components)`, then `+= 10`, then `max(0, min(100, ...))`. -/
def presentationScoreCalc (face_metrics : FaceMetrics) (question_quality : ℤ)
    (transcript : String) : ℤ :=
  let presentation_score := pyInt (rawScoreOf face_metrics question_quality transcript)
  let boosted := presentation_score + 10
  max 0 (min 100 boosted)

/-- The fusion formula exactly as the spec states it (spec section 4.4):
`mean(face)*0.40 + questionQuality*0.30 +
 mean(min(100, chars/20), min(100, words/2))*0.20 + trendScore*0.10`.
Stated from the spec's words, to be compared with `rawScoreOf`. -/
def specRawScore (avgCuriosity avgAttention avgVibe questionQuality : ℚ)
    (charCount wordCount : ℕ) (trend : String) : ℚ :=
  (avgCuriosity + avgAttention + avgVibe) / 3 * 0.40 +
    questionQuality * 0.30 +
    ((min 100 ((charCount : ℚ) / 20) + min 100 ((wordCount : ℚ) / 2)) / 2) * 0.20 +
    (if trend = "improving" then (80 : ℚ) else if trend = "stable" then 50 else 30) * 0.10

/-! ### The `/gemini-feedback` route (app.py lines 143-378) -/

/-- The three external Gemini calls made by `gemini_feedback`, in program
order.  Each is an `Except`: `.error` models the call raising. -/
structure Oracles where
  feedbackCall : Except String String
  questionCall : Except String String
  speakerCall : Except String String

/-- Which external analysis calls a `gemini_feedback` run performed. -/
inductive ExtCall where
  | feedback
  | question
  | speaker
deriving DecidableEq

/-- The success body of `/gemini-feedback` (app.py lines 364-374). -/
structure FinalizeOk where
  feedback : String
  transcript : String
  taggedTranscript : String
  segments : List Segment
  presentationScore : ℤ
  questionCount : ℤ
  questionQuality : ℤ
  questionInsights : String
deriving DecidableEq

/-- `gemini_feedback` (app.py lines 143-378).  Returns the HTTP result
(error body and status, or the success record), the resulting store, and
the list of external calls performed.  The critique and question calls are
inside the outer `try` only, so their failure is the route-level 500
handler; only the speaker call has its own `try/except` (lines 343-358).
`chunks.sort(...)` mutates the stored list in place, so the sorted list is
written back before any external call. -/
def gemini_feedback (st : Store) (sessionId : Option String)
    (faceMetrics : Option FaceMetrics) (o : Oracles) :
    Except (String × ℕ) FinalizeOk × Store × List ExtCall :=
  let session_id := sessionId.getD "default"
  let face_metrics := faceMetrics.getD ⟨some 0, some 0, some 0, some "stable"⟩
  match st session_id with
  | none => (.error ("No transcripts found for this session", 400), st, [])
  | some [] => (.error ("No transcripts found for this session", 400), st, [])
  | some (c0 :: rest) =>
    let chunks := sortChunks (c0 :: rest)
    let st1 := updMap st session_id (some chunks)
    let transcript := String.intercalate " " (chunks.map (fun c => c.text))
    let all_segments := chunks.flatMap (fun c => c.segments.map (shiftSegment ((c.start_time : ℚ))))
    match o.feedbackCall with
    | .error e => (.error (e, 500), st1, [.feedback])
    | .ok feedback =>
      match o.questionCall with
      | .error e => (.error (e, 500), st1, [.feedback, .question])
      | .ok qtext =>
        let q := parseQuestionAnalysis qtext
        let presentation_score := presentationScoreCalc face_metrics q.question_quality transcript
        match o.speakerCall with
        | .ok stext =>
          (.ok ⟨feedback, transcript, String.mk (pyStrip stext.data), all_segments,
              presentation_score, q.question_count, q.question_quality, q.question_insights⟩,
           updMap st1 session_id none, [.feedback, .question, .speaker])
        | .error _ =>
          (.ok ⟨feedback, transcript, transcript, all_segments,
              presentation_score, q.question_count, q.question_quality, q.question_insights⟩,
           updMap st1 session_id none, [.feedback, .question, .speaker])

/-! ### Realtime control channel (app.py lines 670-762) -/

/-- One entry of `active_sessions` (app.py line 682). -/
structure DeviceInfo where
  sessionId : String
  type : String
deriving DecidableEq

/-- The realtime state: `active_sessions` (socket id to device info),
`presenter_sessions` (session id to presenter's socket id), and the
Socket.IO room membership lists (room name to member socket ids). -/
structure RTState where
  active_sessions : String → Option DeviceInfo
  presenter_sessions : String → Option String
  rooms : String → List String

/-- Server-to-client events the handlers emit. -/
inductive Msg where
  | session_verified (valid : Bool) (message : String)
  | error (message : String)
  | toggle_recording_command (action : String)
  | recording_state_changed (isRecording : Bool)
deriving DecidableEq

/-- Client-to-server events (with the originating socket id). -/
inductive Event where
  | connect (sid : String)
  | join_session (sid : String) (sessionId : String) (deviceType : String)
  | toggle_recording (sid : String) (sessionId : String)
  | recording_state_update (sid : String) (sessionId : String) (isRecording : Bool)
  | disconnect (sid : String)
deriving DecidableEq

/-- Socket.IO `join_room`: add the socket to the room (idempotent). -/
def join_room (rooms : String → List String) (room sid : String) : String → List String :=
  fun r =>
    if r = room then (if sid ∈ rooms room then rooms room else rooms room ++ [sid])
    else rooms r

/-- The empty realtime state. -/
def initRT : RTState :=
  { active_sessions := fun _ => none, presenter_sessions := fun _ => none, rooms := fun _ => [] }

/-- One event-handler step (app.py lines 671-762).  Returns the new state
and the list of `(target socket id, message)` deliveries the handler emits.
Socket.IO removes a disconnecting socket from all rooms, modelled in the
`disconnect` case. -/
def step (st : RTState) : Event → RTState × List (String × Msg)
  | .connect _ => (st, [])
  | .join_session sid session_id device_type =>
    let st1 : RTState :=
      { st with active_sessions := updMap st.active_sessions sid (some ⟨session_id, device_type⟩) }
    let st2 : RTState :=
      if device_type = "presenter" then
        { st1 with presenter_sessions := updMap st1.presenter_sessions session_id (some sid) }
      else st1
    if device_type = "controller" then
      match st2.presenter_sessions session_id with
      | some _ =>
        ({ st2 with rooms := join_room st2.rooms session_id sid },
         [(sid, .session_verified true "Session found")])
      | none => (st2, [(sid, .session_verified false "Session not found")])
    else ({ st2 with rooms := join_room st2.rooms session_id sid }, [])
  | .toggle_recording sid session_id =>
    match st.presenter_sessions session_id with
    | none => (st, [(sid, .error "Session not found or presenter is offline")])
    | some _ =>
      (st, ((st.rooms session_id).filter (fun t => t != sid)).map
        (fun t => (t, .toggle_recording_command "toggle")))
  | .recording_state_update sid session_id isRec =>
    (st, ((st.rooms session_id).filter (fun t => t != sid)).map
      (fun t => (t, .recording_state_changed isRec)))
  | .disconnect sid =>
    let prunedRooms := fun r => (st.rooms r).erase sid
    match st.active_sessions sid with
    | none => ({ st with rooms := prunedRooms }, [])
    | some info =>
      let base : RTState :=
        { active_sessions := updMap st.active_sessions sid none,
          presenter_sessions := st.presenter_sessions,
          rooms := prunedRooms }
      if info.type = "presenter" then
        match st.presenter_sessions info.sessionId with
        | some _ =>
          ({ base with presenter_sessions := updMap st.presenter_sessions info.sessionId none }, [])
        | none => (base, [])
      else (base, [])

/-- Run a list of events, collecting all deliveries in order. -/
def run (st : RTState) : List Event → RTState × List (String × Msg)
  | [] => (st, [])
  | e :: es =>
    let (st1, out) := step st e
    let (st2, outs) := run st1 es
    (st2, out ++ outs)

/-- `true` iff the event is a `join_session` from socket `c`. -/
def isJoinBy (c : String) : Event → Bool
  | .join_session sid _ _ => sid == c
  | _ => false

/-- `true` iff the event triggers a room broadcast scoped to session `s`. -/
def isBroadcastEvt (s : String) : Event → Bool
  | .toggle_recording _ s2 => s2 == s
  | .recording_state_update _ s2 _ => s2 == s
  | _ => false

/-- `true` iff the message is one of the two room-broadcast messages. -/
def isBroadcastMsg : Msg → Bool
  | .toggle_recording_command _ => true
  | .recording_state_changed _ => true
  | _ => false

/-- Over the event list, every broadcast-triggering event for session `s`
delivers no broadcast message to socket `c`. -/
def noBroadcastTo (c s : String) : RTState → List Event → Prop
  | _, [] => True
  | st, e :: es =>
    (isBroadcastEvt s e = true →
      ∀ p ∈ (step st e).2, p.1 = c → isBroadcastMsg p.2 = false) ∧
    noBroadcastTo c s (step st e).1 es

/-! ### Concrete inputs used by witnesses and counterexamples -/

/-- A 10-character word block ending in a space. -/
def wordChars : List Char := ['a', 'b', 'c', 'd', 'e', 'f', 'g', 'h', 'i', ' ']

/-- 2000 characters: 199 ten-character blocks plus one ten-character word. -/
def exChars : List Char := (List.replicate 199 wordChars).flatten ++ "abcdefghij".data

/-- A transcript of exactly 2000 characters and 200 whitespace-separated
words (199 words of 9 letters and one of 10, single spaces between). -/
def exTranscript : String := String.mk exChars

/-- Face metrics with all three sub-scores 80 and trend "stable". -/
def fm80 : FaceMetrics := ⟨some 80, some 80, some 80, some "stable"⟩

/-- Face metrics with every key absent. -/
def fmNone : FaceMetrics := ⟨none, none, none, none⟩

/-- A chunk as built by ingesting index 0 with text "hi" and no segments. -/
def chunkHi : ChunkData := ⟨0, "hi", [], 0⟩

/-- A valid ingest request for session "s", index 0. -/
def reqHi : ChunkRequest := ⟨true, "a.webm", some 0, some "s"⟩

/-- A valid ingest request whose `sessionId` form field is missing. -/
def reqNoSid : ChunkRequest := ⟨true, "a.webm", some 0, none⟩

/-- A store holding exactly one chunk under session "s". -/
def storeS : Store := fun x => if x = "s" then some [chunkHi] else none

/-- Oracles whose critique (feedback) call raises. -/
def oraclesFbFail : Oracles := ⟨.error "boom", .ok "", .ok ""⟩

/-- A segment starting at 1.5s and ending at 3.0s. -/
def segX : Segment := ⟨some (3 / 2), some 3, "x"⟩

/-- Chunk index 0 with one segment. -/
def chunkC0 : ChunkData := ⟨0, "a", [segX], 0⟩

/-- Chunk index 2 with one segment (base offset 60s). -/
def chunkC2 : ChunkData := ⟨2, "b", [⟨some (3 / 2), some 3, "y"⟩], 60⟩

/-! ## Theorems -/

/-- Claim C7: finalize (`gemini_feedback`) on a session with zero stored
chunks fails with the EmptySession error ("No transcripts found for this
session", HTTP 400), returns the store unchanged, and performs no external
analysis call. -/
theorem c7_empty_session (st : Store) (sessionId : Option String)
    (fm : Option FaceMetrics) (o : Oracles)
    (h : st (sessionId.getD "default") = none ∨ st (sessionId.getD "default") = some []) :
    gemini_feedback st sessionId fm o =
      (.error ("No transcripts found for this session", 400), st, []) := by
  rcases h with h | h <;> simp [gemini_feedback, h]

/-- Witness for C7 at the empty store and session "s". -/
theorem c7_empty_session_witness :
    (emptyStore "s" = none ∨ emptyStore "s" = some []) ∧
    gemini_feedback emptyStore (some "s") none ⟨.ok "", .ok "", .ok ""⟩ =
      (.error ("No transcripts found for this session", 400), emptyStore, []) :=
  ⟨Or.inl rfl, c7_empty_session emptyStore (some "s") none ⟨.ok "", .ok "", .ok ""⟩ (Or.inl rfl)⟩

/-- Claim C2 counterexample: with one chunk stored under session "s", a
failing qualitative-critique call makes the whole finalize request fail
with a 500 error — it is not caught independently and the call does not
succeed, contrary to the claim. -/
theorem c2_counterexample :
    (gemini_feedback storeS (some "s") none oraclesFbFail).1 = .error ("boom", 500) := by
  rfl

/-- Claim C2 amended: only the speaker-tagging call is caught
independently.  For a non-empty session: if the critique and question calls
succeed and the speaker call fails, the finalize request still succeeds and
the tagged transcript degrades to the untagged assembled transcript; but if
the qualitative-critique call fails, or if the question-scoring call fails,
the whole request fails with a 500 error. -/
theorem c2_amended (st : Store) (sid : String) (c0 : ChunkData) (rest : List ChunkData)
    (h : st sid = some (c0 :: rest)) (fm : Option FaceMetrics) (fb q em : String)
    (oq os os2 : Except String String) :
    ((gemini_feedback st (some sid) fm ⟨.ok fb, .ok q, .error em⟩).1.map
        (fun r => (r.taggedTranscript, r.transcript)) =
      .ok ((assembleTranscript (c0 :: rest)).1, (assembleTranscript (c0 :: rest)).1)) ∧
    (gemini_feedback st (some sid) fm ⟨.error em, oq, os⟩).1 = .error (em, 500) ∧
    (gemini_feedback st (some sid) fm ⟨.ok fb, .error em, os2⟩).1 = .error (em, 500) := by
  refine ⟨?_, ?_, ?_⟩
  · simp [gemini_feedback, h, assembleTranscript, Except.map]
  · simp [gemini_feedback, h]
  · simp [gemini_feedback, h]

/-- Witness for C2 (amended) at a concrete one-chunk store, exercising the
speaker-failure, critique-failure and question-failure cases. -/
theorem c2_amended_witness :
    storeS "s" = some [chunkHi] ∧
    ((gemini_feedback storeS (some "s") none ⟨.ok "F", .ok "Q", .error "x"⟩).1.map
        (fun r => (r.taggedTranscript, r.transcript)) =
      .ok ((assembleTranscript [chunkHi]).1, (assembleTranscript [chunkHi]).1)) ∧
    (gemini_feedback storeS (some "s") none ⟨.error "x", .ok "", .ok ""⟩).1 =
      .error ("x", 500) ∧
    (gemini_feedback storeS (some "s") none ⟨.ok "F", .error "x", .ok ""⟩).1 =
      .error ("x", 500) :=
  ⟨rfl,
   (c2_amended storeS "s" chunkHi [] rfl none "F" "Q" "x" (.ok "") (.ok "") (.ok "")).1,
   (c2_amended storeS "s" chunkHi [] rfl none "F" "Q" "x" (.ok "") (.ok "") (.ok "")).2.1,
   (c2_amended storeS "s" chunkHi [] rfl none "F" "Q" "x" (.ok "") (.ok "") (.ok "")).2.2⟩

/-- Claim C9 counterexample: a chunk-ingest request with audio present but
no `sessionId` field is accepted (success response) and its chunk is stored
under the substitute session id "default" — it is not rejected as a
ValidationError. -/
theorem c9_counterexample :
    (transcribe_chunk emptyStore reqNoSid true "hi" []).1 = .ok 0 "hi" ∧
    (transcribe_chunk emptyStore reqNoSid true "hi" []).2 "default" = some [chunkHi] := by
  constructor <;> rfl

/-- Claim C9 amended: missing audio and an empty filename are rejected
immediately with no state mutated, but a missing session id is NOT
rejected: the request is accepted and the chunk is stored under the
substitute session id "default". -/
theorem c9_amended (st : Store) (req : ChunkRequest) (convertOk : Bool)
    (wt : String) (ws : List Segment)
    (h1 : req.hasAudio = true) (h2 : req.filename ≠ "") (h3 : convertOk = true)
    (h4 : req.sessionId = none) :
    (transcribe_chunk st { req with hasAudio := false } convertOk wt ws =
      (.err "No audio file provided" 400, st)) ∧
    (transcribe_chunk st { req with hasAudio := true, filename := "" } convertOk wt ws =
      (.err "Empty filename" 400, st)) ∧
    ((transcribe_chunk st req convertOk wt ws).1 =
      .ok (req.chunkIndex.getD 0) (String.mk (pyStrip wt.data))) ∧
    ((transcribe_chunk st req convertOk wt ws).2 "default" =
      some (((st "default").getD []) ++
        [⟨req.chunkIndex.getD 0, String.mk (pyStrip wt.data), ws, req.chunkIndex.getD 0 * 30⟩])) := by
  refine ⟨?_, ?_, ?_, ?_⟩
  · simp [transcribe_chunk]
  · simp [transcribe_chunk]
  · simp [transcribe_chunk, h1, h2, h3]
  · simp [transcribe_chunk, h1, h2, h3, h4, updMap]

/-- Witness for C9 (amended) at the concrete missing-session-id request. -/
theorem c9_amended_witness :
    reqNoSid.hasAudio = true ∧ reqNoSid.filename ≠ "" ∧ reqNoSid.sessionId = none ∧
    (transcribe_chunk emptyStore reqNoSid true "hi" []).2 "default" =
      some (((emptyStore "default").getD []) ++
        [⟨reqNoSid.chunkIndex.getD 0, String.mk (pyStrip "hi".data), [],
          reqNoSid.chunkIndex.getD 0 * 30⟩]) :=
  ⟨rfl, by decide, rfl,
   (c9_amended emptyStore reqNoSid true "hi" [] rfl (by decide) rfl rfl).2.2.2⟩

/-- Claim C1 counterexample: ingesting chunkIndex 0 (text "hi") twice into
the same session stores two copies, and assembly joins both texts into
"hi hi" — the re-uploaded index is duplicated in the final transcript, so
the store is not keyed by chunkIndex under any write-wins policy. -/
theorem c1_counterexample :
    ((transcribe_chunk (transcribe_chunk emptyStore reqHi true "hi" []).2
        reqHi true "hi" []).2 "s") = some [chunkHi, chunkHi] ∧
    (assembleTranscript [chunkHi, chunkHi]).1 = "hi hi" ∧
    ("hi hi" : String) ≠ "hi" := by
  refine ⟨rfl, rfl, by decide⟩

/-- Claim C1 amended: `transcribe_chunk` appends every ingested chunk to
the session's list without keying by chunkIndex, and assembly keeps every
stored chunk (the assembled texts are a permutation of the stored texts),
so re-uploading an index contributes once per upload. -/
theorem c1_amended (st : Store) (req : ChunkRequest) (convertOk : Bool)
    (wt : String) (ws : List Segment)
    (h1 : req.hasAudio = true) (h2 : req.filename ≠ "") (h3 : convertOk = true) :
    ((transcribe_chunk st req convertOk wt ws).2 (req.sessionId.getD "default") =
      some (((st (req.sessionId.getD "default")).getD []) ++
        [⟨req.chunkIndex.getD 0, String.mk (pyStrip wt.data), ws,
          req.chunkIndex.getD 0 * 30⟩])) ∧
    (∀ l : List ChunkData,
      ((sortChunks l).map (fun c => c.text)).Perm (l.map (fun c => c.text))) := by
  constructor
  · simp [transcribe_chunk, h1, h2, h3, updMap]
  · intro l
    exact (List.perm_insertionSort _ l).map _

/-- Witness for C1 (amended): the duplicate-index store from the
counterexample run. -/
theorem c1_amended_witness :
    reqHi.hasAudio = true ∧
    ((transcribe_chunk storeS reqHi true "hi" []).2 (reqHi.sessionId.getD "default") =
      some (((storeS (reqHi.sessionId.getD "default")).getD []) ++
        [⟨reqHi.chunkIndex.getD 0, String.mk (pyStrip "hi".data), [],
          reqHi.chunkIndex.getD 0 * 30⟩])) ∧
    ((sortChunks [chunkHi, chunkHi]).map (fun c => c.text)).Perm
      ([chunkHi, chunkHi].map (fun c => c.text)) :=
  ⟨rfl,
   (c1_amended storeS reqHi true "hi" [] rfl (by decide) rfl).1,
   (c1_amended storeS reqHi true "hi" [] rfl (by decide) rfl).2 [chunkHi, chunkHi]⟩

/-! ### Score-fusion helper lemmas -/

/-- `pyInt` is the floor on nonnegative arguments. -/
theorem pyInt_of_nonneg {q : ℚ} (h : 0 ≤ q) : pyInt q = ⌊q⌋ := if_pos h

/-- "stable" is not "improving". -/
theorem stable_ne_improving : ¬("stable" : String) = "improving" := by decide

/-- `presentationScoreCalc` is clamp of truncation of the component sum. -/
theorem presentationScoreCalc_eq (fm : FaceMetrics) (qq : ℤ) (t : String) :
    presentationScoreCalc fm qq t = max 0 (min 100 (pyInt (rawScoreOf fm qq t) + 10)) := rfl

/-- The code's component sum equals the spec's §4.4 formula on the code's
inputs (the only syntactic difference is the guarded word-density division,
which agrees at zero words). -/
theorem rawScoreOf_eq_spec (fm : FaceMetrics) (qq : ℤ) (t : String) :
    rawScoreOf fm qq t =
      specRawScore (fm.avgCuriosity.getD 0) (fm.avgAttention.getD 0) (fm.avgVibe.getD 0)
        (qq : ℚ) t.length (pyWords t).length (fm.trend.getD "stable") := by
  simp only [rawScoreOf, specRawScore]
  by_cases hw : 0 < (pyWords t).length
  · rw [if_pos hw]
  · rw [if_neg hw]
    have h0 : (pyWords t).length = 0 := by omega
    rw [h0]
    norm_num

/-- Character count of the block transcript shape. -/
theorem block_length (n : ℕ) :
    ((List.replicate n wordChars).flatten ++ "abcdefghij".data).length = 10 * n + 10 := by
  induction n with
  | zero => decide
  | succ k ih =>
    rw [List.replicate_succ, List.flatten_cons, List.append_assoc, List.length_append, ih]
    rw [show wordChars.length = 10 from rfl]
    omega

/-- `exTranscript` has exactly 2000 characters. -/
theorem exTranscript_length : exTranscript.length = 2000 := by
  show exChars.length = 2000
  rw [exChars, block_length]

/-- Splitting words: one leading 9-letter word block peels off. -/
theorem pyWordsAux_word (rest : List Char) :
    pyWordsAux (wordChars ++ rest) [] = "abcdefghi" :: pyWordsAux rest [] := rfl

/-- Word count of the block transcript shape. -/
theorem pyWords_block (n : ℕ) :
    (pyWordsAux ((List.replicate n wordChars).flatten ++ "abcdefghij".data) []).length =
      n + 1 := by
  induction n with
  | zero => decide
  | succ k ih =>
    rw [List.replicate_succ, List.flatten_cons, List.append_assoc, pyWordsAux_word,
      List.length_cons, ih]

/-- `exTranscript` has exactly 200 whitespace-separated words. -/
theorem pyWords_exTranscript : (pyWords exTranscript).length = 200 := by
  show (pyWordsAux exChars []).length = 200
  rw [exChars, pyWords_block]

/-- Component sum at the truncation counterexample input: face metrics all
absent (0), question quality 5, empty transcript, trend stable gives
`5*0.30 + 50*0.10 = 6.5`. -/
theorem rawScore_eval0 : rawScoreOf fmNone 5 "" = 13 / 2 := by
  have hl : ("" : String).length = 0 := rfl
  have hw : (pyWords "").length = 0 := rfl
  rw [rawScoreOf_eq_spec, hl, hw]
  simp only [specRawScore, fmNone, Option.getD_none]
  rw [if_neg stable_ne_improving, if_true]
  norm_num

/-- Claim C4 counterexample: at face metrics absent, question quality 5 and
an empty transcript, the code returns score 16, while the claimed formula
`clamp(rawScore + 10, 0, 100)` evaluates to 16.5 — the raw sum is truncated
by `int(...)` before the offset, so the claimed equation fails. -/
theorem c4_counterexample :
    presentationScoreCalc fmNone 5 "" = 16 ∧
    ((16 : ℚ) ≠ max 0 (min 100 (specRawScore 0 0 0 5 0 0 "stable" + 10))) := by
  constructor
  · rw [presentationScoreCalc_eq, rawScore_eval0, pyInt_of_nonneg (by norm_num)]
    norm_num
  · simp only [specRawScore]
    rw [if_neg stable_ne_improving, if_true]
    norm_num

/-- Claim C4 amended: the fused score is
`clamp(int(rawScore) + 10, 0, 100)` where `int(...)` truncates the raw
weighted sum toward zero before the fixed offset, and rawScore is exactly
the spec's weighted formula; on the claim's concrete inputs (face metrics
all 80, question quality 70, a transcript of exactly 2000 characters and
200 words, trend "stable") the returned score equals 88 as claimed. -/
theorem c4_amended :
    (∀ (fm : FaceMetrics) (qq : ℤ) (t : String),
      presentationScoreCalc fm qq t =
        max 0 (min 100 (pyInt (specRawScore (fm.avgCuriosity.getD 0) (fm.avgAttention.getD 0)
          (fm.avgVibe.getD 0) (qq : ℚ) t.length (pyWords t).length
          (fm.trend.getD "stable")) + 10))) ∧
    presentationScoreCalc fm80 70 exTranscript = 88 := by
  constructor
  · intro fm qq t
    rw [presentationScoreCalc_eq, rawScoreOf_eq_spec]
  · rw [presentationScoreCalc_eq]
    have h78 : rawScoreOf fm80 70 exTranscript = 78 := by
      rw [rawScoreOf_eq_spec, exTranscript_length, pyWords_exTranscript]
      simp only [specRawScore, fm80, Option.getD_some]
      rw [if_neg stable_ne_improving, if_true]
      norm_num
    rw [h78, pyInt_of_nonneg (by norm_num)]
    norm_num

/-- Claim C10: the returned presentation score is an integer in [0, 100];
the weighted component sum is truncated by `int(...)` before the `+ 10`
offset and the clamp, so on the spec's domain (nonnegative raw sum) the
score equals `clamp(⌊rawScore⌋ + 10, 0, 100)`, and it differs from the
untruncated `clamp(rawScore + 10, 0, 100)` whenever the raw sum has a
nonzero fractional part and is below the clamp ceiling. -/
theorem c10_truncation_bounds (fm : FaceMetrics) (qq : ℤ) (t : String) :
    0 ≤ presentationScoreCalc fm qq t ∧
    presentationScoreCalc fm qq t ≤ 100 ∧
    (0 ≤ rawScoreOf fm qq t →
      presentationScoreCalc fm qq t = max 0 (min 100 (⌊rawScoreOf fm qq t⌋ + 10))) ∧
    (0 ≤ rawScoreOf fm qq t → ((⌊rawScoreOf fm qq t⌋ : ℚ) < rawScoreOf fm qq t) →
      rawScoreOf fm qq t + 10 ≤ 100 →
      ((presentationScoreCalc fm qq t : ℚ) ≠ max 0 (min 100 (rawScoreOf fm qq t + 10)))) := by
  have hc := presentationScoreCalc_eq fm qq t
  refine ⟨?_, ?_, ?_, ?_⟩
  · rw [hc]; exact le_max_left _ _
  · rw [hc]; exact max_le (by norm_num) (min_le_left _ _)
  · intro h
    rw [hc, pyInt_of_nonneg h]
  · intro h hfrac hle
    rw [hc, pyInt_of_nonneg h]
    have hfl0 : (0 : ℤ) ≤ ⌊rawScoreOf fm qq t⌋ := Int.floor_nonneg.mpr h
    have hfl100 : ⌊rawScoreOf fm qq t⌋ + 10 ≤ 100 := by
      have h1 : ((⌊rawScoreOf fm qq t⌋ : ℚ)) ≤ rawScoreOf fm qq t := Int.floor_le _
      have h2 : ((⌊rawScoreOf fm qq t⌋ : ℚ)) ≤ 90 := by linarith
      have h3 : ⌊rawScoreOf fm qq t⌋ ≤ 90 := by exact_mod_cast h2
      omega
    have hL : max 0 (min 100 (⌊rawScoreOf fm qq t⌋ + 10)) = ⌊rawScoreOf fm qq t⌋ + 10 := by
      rw [min_eq_right hfl100, max_eq_right (by omega)]
    have hR : max 0 (min 100 (rawScoreOf fm qq t + 10)) = rawScoreOf fm qq t + 10 := by
      rw [min_eq_right hle, max_eq_right (by linarith)]
    rw [hL, hR]
    push_cast
    intro heq
    linarith

/-- Witness for C10 at the concrete fractional-raw-score input. -/
theorem c10_truncation_bounds_witness :
    0 ≤ presentationScoreCalc fmNone 5 "" ∧
    ((presentationScoreCalc fmNone 5 "" : ℚ) ≠
      max 0 (min 100 (rawScoreOf fmNone 5 "" + 10))) :=
  ⟨(c10_truncation_bounds fmNone 5 "").1,
   (c10_truncation_bounds fmNone 5 "").2.2.2
     (by rw [rawScore_eval0]; norm_num)
     (by rw [rawScore_eval0]; norm_num)
     (by rw [rawScore_eval0]; norm_num)⟩

/-! ### Assembly-order helper lemmas -/

/-- Congruence for `List.flatMap` under a pointwise function equality. -/
theorem flatMap_congr {α β : Type _} {l : List α} {f g : α → List β}
    (h : ∀ a ∈ l, f a = g a) : l.flatMap f = l.flatMap g := by
  induction l with
  | nil => rfl
  | cons a l ih =>
    rw [List.flatMap_cons, List.flatMap_cons, h a (by simp),
      ih (fun x hx => h x (by simp [hx]))]

/-- Sorting a permutation of a strictly index-sorted list recovers that
list (chunk indices are distinct, so the stable sort has a unique result). -/
theorem sortChunks_eq_of_sorted (l m : List ChunkData) (hp : l.Perm m)
    (hs : m.Pairwise (fun a b => a.chunk_index < b.chunk_index)) : sortChunks l = m := by
  have hperm : (sortChunks l).Perm m := (List.perm_insertionSort _ l).trans hp
  have hle : (sortChunks l).Pairwise (fun a b => a.chunk_index ≤ b.chunk_index) :=
    List.sorted_insertionSort _ l
  have hmne : m.Pairwise (fun a b => a.chunk_index ≠ b.chunk_index) :=
    hs.imp (fun h => ne_of_lt h)
  have hne : (sortChunks l).Pairwise (fun a b => a.chunk_index ≠ b.chunk_index) :=
    (hperm.pairwise_iff (fun h2 => Ne.symm h2)).mpr hmne
  have hlt : (sortChunks l).Pairwise (fun a b => a.chunk_index < b.chunk_index) :=
    (hle.and hne).imp (fun h2 => lt_of_le_of_ne h2.1 h2.2)
  haveI : IsAntisymm ChunkData (fun a b => a.chunk_index < b.chunk_index) :=
    ⟨fun _ _ h1 h2 => absurd h1 (lt_asymm h2)⟩
  exact List.eq_of_perm_of_sorted hperm hlt hs

/-- Claim C3: for a session whose stored chunks are any permutation of a
set of chunks with strictly increasing (hence distinct, e.g. 0..N-1)
indices and the ingest-computed base offsets, assembly sorts ascending by
chunkIndex, joins the text fields in index order with a single separating
space, and returns the segments in chunk order with each segment's offsets
shifted by chunkIndex * 30 seconds, preserving segment order within each
chunk. -/
theorem c3_assemble_order (l m : List ChunkData) (hp : l.Perm m)
    (hs : m.Pairwise (fun a b => a.chunk_index < b.chunk_index))
    (hst : ∀ c ∈ l, c.start_time = c.chunk_index * 30) :
    assembleTranscript l =
      (String.intercalate " " (m.map (fun c => c.text)),
       m.flatMap (fun c => c.segments.map (shiftSegment ((c.chunk_index * 30 : ℤ) : ℚ)))) := by
  have heq : sortChunks l = m := sortChunks_eq_of_sorted l m hp hs
  have hstm : ∀ c ∈ m, c.start_time = c.chunk_index * 30 :=
    fun c hc => hst c (hp.mem_iff.mpr hc)
  have hseg : m.flatMap (fun c => c.segments.map (shiftSegment ((c.start_time : ℚ)))) =
      m.flatMap (fun c => c.segments.map (shiftSegment ((c.chunk_index * 30 : ℤ) : ℚ))) :=
    flatMap_congr (fun c hc => by rw [hstm c hc])
  simp only [assembleTranscript, heq, hseg]

/-- Witness for C3: chunks 0 and 2 delivered in reversed order; also checks
the spec's absolute-offset example (a segment at 1.5s-3.0s of chunk 2 lands
at 61.5s-63.0s). -/
theorem c3_assemble_order_witness :
    ([chunkC2, chunkC0] : List ChunkData).Perm [chunkC0, chunkC2] ∧
    assembleTranscript [chunkC2, chunkC0] =
      (String.intercalate " " ([chunkC0, chunkC2].map (fun c => c.text)),
       [chunkC0, chunkC2].flatMap
         (fun c => c.segments.map (shiftSegment ((c.chunk_index * 30 : ℤ) : ℚ)))) ∧
    shiftSegment 60 ⟨some (3 / 2), some 3, "y"⟩ = ⟨some (123 / 2), some 63, "y"⟩ :=
  ⟨List.Perm.swap _ _ _,
   c3_assemble_order [chunkC2, chunkC0] [chunkC0, chunkC2] (List.Perm.swap _ _ _)
     (by decide) (by decide),
   by simp only [shiftSegment, Option.map_some]; norm_num⟩

/-! ### Realtime control-channel theorems -/

/-- Claim C5 counterexample: presenter A joins session S, presenter B then
replaces A as the bound presenter; when the superseded connection A
disconnects, the binding for S is removed even though A is not the
currently bound presenter (the claim says it would be left unchanged at B). -/
theorem c5_counterexample :
    ((run initRT [.join_session "A" "S" "presenter",
        .join_session "B" "S" "presenter"]).1.presenter_sessions "S" = some "B") ∧
    ((run initRT [.join_session "A" "S" "presenter",
        .join_session "B" "S" "presenter"]).1.active_sessions "A" =
      some ⟨"S", "presenter"⟩) ∧
    (("A" : String) ≠ "B") ∧
    ((step (run initRT [.join_session "A" "S" "presenter",
        .join_session "B" "S" "presenter"]).1
        (.disconnect "A")).1.presenter_sessions "S" = none) := by
  refine ⟨by decide, by decide, by decide, by decide⟩

/-- Claim C5 amended: on disconnect, the PresenterBinding of the leaving
connection's session is removed iff the leaving connection's recorded role
is presenter — regardless of whether it is the connection currently bound
as that session's presenter.  (When the session has no binding, removal and
no-change coincide.) -/
theorem c5_amended (st : RTState) (sid s : String) :
    (step st (.disconnect sid)).1.presenter_sessions s =
      (match st.active_sessions sid with
       | some info =>
         if info.type = "presenter" ∧ info.sessionId = s then none
         else st.presenter_sessions s
       | none => st.presenter_sessions s) := by
  rcases h : st.active_sessions sid with _ | info
  · simp [step, h]
  · simp only [step, h]
    by_cases ht : info.type = "presenter"
    · rcases hb : st.presenter_sessions info.sessionId with _ | p
      · by_cases hss : info.sessionId = s
        · subst hss
          simp [ht, hb]
        · simp [ht, hb, hss]
      · by_cases hss : info.sessionId = s
        · subst hss
          simp [ht, hb, updMap]
        · simp [ht, hb, hss, updMap, Ne.symm hss]
    · simp [ht]

/-- Claim C6 counterexample: after presenter A is superseded by presenter B
on session S and controller C joins, a `toggle_recording` from C is
delivered to the superseded presenter connection A, because A is still a
member of the Socket.IO room (the claim says the superseded connection
receives no broadcast). -/
theorem c6_counterexample :
    ((run initRT [.join_session "A" "S" "presenter", .join_session "B" "S" "presenter",
        .join_session "C" "S" "controller"]).1.presenter_sessions "S" = some "B") ∧
    (("A", Msg.toggle_recording_command "toggle") ∈
      (step (run initRT [.join_session "A" "S" "presenter",
          .join_session "B" "S" "presenter",
          .join_session "C" "S" "controller"]).1
        (.toggle_recording "C" "S")).2) := by
  refine ⟨by decide, by decide⟩

/-- Claim C6 amended: a second presenter join on the same session yields
exactly one PresenterBinding, bound to the second connection (and no other
session gains a binding); but `toggle_recording` broadcasts to every
current room member except the sender, and the superseded presenter stays
in the room while it remains connected, so it does receive the toggle
command. -/
theorem c6_amended (a b s : String) (hab : a ≠ b) :
    ((run initRT [.join_session a s "presenter",
        .join_session b s "presenter"]).1.presenter_sessions s = some b) ∧
    (∀ s2, s2 ≠ s →
      (run initRT [.join_session a s "presenter",
        .join_session b s "presenter"]).1.presenter_sessions s2 = none) ∧
    ((step (run initRT [.join_session a s "presenter", .join_session b s "presenter"]).1
        (.toggle_recording b s)).2 = [(a, .toggle_recording_command "toggle")]) := by
  refine ⟨?_, ?_, ?_⟩
  · simp [run, step, initRT, updMap, join_room]
  · intro s2 hs2
    simp [run, step, initRT, updMap, join_room, hs2]
  · simp [run, step, initRT, updMap, join_room, hab, Ne.symm hab]

/-- Witness for C6 (amended) at connections "A", "B" and session "S". -/
theorem c6_amended_witness :
    (("A" : String) ≠ "B") ∧
    ((run initRT [.join_session "A" "S" "presenter",
        .join_session "B" "S" "presenter"]).1.presenter_sessions "S" = some "B") ∧
    ((step (run initRT [.join_session "A" "S" "presenter",
        .join_session "B" "S" "presenter"]).1
        (.toggle_recording "B" "S")).2 = [("A", .toggle_recording_command "toggle")]) :=
  ⟨by decide,
   (c6_amended "A" "B" "S" (by decide)).1,
   (c6_amended "A" "B" "S" (by decide)).2.2⟩

/-- A socket not in a room stays out of it under `join_room` for a
different socket. -/
theorem not_mem_join_room {rooms : String → List String} {room sid c r : String}
    (h : c ∉ rooms r) (hne : c ≠ sid) : c ∉ join_room rooms room sid r := by
  simp only [join_room]
  by_cases hr : r = room
  · subst hr
    simp only [if_pos rfl]
    by_cases hm : sid ∈ rooms r
    · simpa [hm] using h
    · simp only [if_neg hm]
      intro hc
      rcases List.mem_append.mp hc with h1 | h1
      · exact h h1
      · exact hne (by simpa using h1)
  · simpa [hr] using h

/-- A socket not in room `s` stays out of it across any event that is not
a `join_session` from that socket. -/
theorem not_mem_rooms_step {st : RTState} {e : Event} {c s : String}
    (h : c ∉ st.rooms s) (hj : isJoinBy c e = false) : c ∉ ((step st e).1).rooms s := by
  cases e with
  | connect sid => simpa [step] using h
  | join_session sid sess dt =>
    have hne : c ≠ sid := by
      simp only [isJoinBy, beq_eq_false_iff_ne] at hj
      exact hj.symm
    simp only [step]
    split
    · split
      · refine not_mem_join_room ?_ hne
        by_cases h2 : dt = "presenter" <;> simpa [h2] using h
      · by_cases h2 : dt = "presenter" <;> simpa [h2] using h
    · refine not_mem_join_room ?_ hne
      by_cases h2 : dt = "presenter" <;> simpa [h2] using h
  | toggle_recording sid sess =>
    rcases hps : st.presenter_sessions sess with _ | p
    · simp only [step, hps]
      exact h
    · simp only [step, hps]
      exact h
  | recording_state_update sid sess isRec => simpa [step] using h
  | disconnect sid =>
    rcases ha : st.active_sessions sid with _ | info
    · simp only [step, ha]
      exact fun hc => h (List.mem_of_mem_erase hc)
    · simp only [step, ha]
      by_cases ht : info.type = "presenter"
      · rw [if_pos ht]
        rcases hps : st.presenter_sessions info.sessionId with _ | p
        · exact fun hc => h (List.mem_of_mem_erase hc)
        · exact fun hc => h (List.mem_of_mem_erase hc)
      · rw [if_neg ht]
        exact fun hc => h (List.mem_of_mem_erase hc)

/-- A broadcast-triggering event for session `s` delivers no broadcast
message to a socket that is not in room `s`. -/
theorem no_broadcast_of_not_in_room {st : RTState} {e : Event} {c s : String}
    (h : c ∉ st.rooms s) (he : isBroadcastEvt s e = true) :
    ∀ p ∈ (step st e).2, p.1 = c → isBroadcastMsg p.2 = false := by
  cases e with
  | connect sid => simp [isBroadcastEvt] at he
  | join_session sid sess dt => simp [isBroadcastEvt] at he
  | toggle_recording sid sess =>
    have hs2 : sess = s := by simpa [isBroadcastEvt] using he
    subst hs2
    rcases hps : st.presenter_sessions sess with _ | p
    · simp [step, hps, isBroadcastMsg]
    · simp only [step, hps]
      intro p hp hpc
      rcases List.mem_map.mp hp with ⟨t, ht, rfl⟩
      exact absurd (List.mem_of_mem_filter ht) (by simpa [hpc.symm] using h)
  | recording_state_update sid sess isRec =>
    have hs2 : sess = s := by simpa [isBroadcastEvt] using he
    subst hs2
    simp only [step]
    intro p hp hpc
    rcases List.mem_map.mp hp with ⟨t, ht, rfl⟩
    exact absurd (List.mem_of_mem_filter ht) (by simpa [hpc.symm] using h)
  | disconnect sid => simp [isBroadcastEvt] at he

/-- The room-exclusion invariant propagates: a socket outside room `s` that
never joins again receives no broadcast for session `s` over any event
list. -/
theorem noBroadcastTo_of_not_in_room (c s : String) :
    ∀ (es : List Event) (st : RTState), c ∉ st.rooms s →
      (∀ e ∈ es, isJoinBy c e = false) → noBroadcastTo c s st es := by
  intro es
  induction es with
  | nil => intro st _ _; trivial
  | cons e es ih =>
    intro st h hj
    refine ⟨fun he => no_broadcast_of_not_in_room h he, ?_⟩
    exact ih _ (not_mem_rooms_step h (hj e (by simp)))
      (fun e2 me => hj e2 (by simp [me]))

/-- Claim C8: a controller `join_session` for a session with no
PresenterBinding receives `session_verified{valid:false}` and is not added
to the session's room; consequently no later `toggle_recording_command` or
`recording_state_changed` broadcast of that session is ever delivered to
it (as long as it does not join again).  A controller join while a
presenter is bound receives `session_verified{valid:true}` and is admitted
to the room. -/
theorem c8_controller_gating (st : RTState) (c s : String)
    (hb : st.presenter_sessions s = none) (hr : c ∉ st.rooms s) :
    ((step st (.join_session c s "controller")).2 =
      [(c, .session_verified false "Session not found")]) ∧
    (c ∉ ((step st (.join_session c s "controller")).1).rooms s) ∧
    (∀ es, (∀ e ∈ es, isJoinBy c e = false) →
      noBroadcastTo c s ((step st (.join_session c s "controller")).1) es) ∧
    (∀ st2 : RTState, (st2.presenter_sessions s).isSome = true →
      ((step st2 (.join_session c s "controller")).2 =
        [(c, .session_verified true "Session found")]) ∧
      c ∈ ((step st2 (.join_session c s "controller")).1).rooms s) := by
  have hstep : step st (.join_session c s "controller") =
      ({ st with active_sessions := updMap st.active_sessions c (some ⟨s, "controller"⟩) },
       [(c, .session_verified false "Session not found")]) := by
    simp [step, hb]
  refine ⟨?_, ?_, ?_, ?_⟩
  · rw [hstep]
  · rw [hstep]
    exact hr
  · intro es hj
    rw [hstep]
    exact noBroadcastTo_of_not_in_room c s es _ hr hj
  · intro st2 h2
    rcases Option.isSome_iff_exists.mp h2 with ⟨p, hp⟩
    constructor
    · simp [step, hp]
    · by_cases hm : c ∈ st2.rooms s <;> simp [step, hp, join_room, hm]

/-- Witness for C8: a fresh controller "C" against the empty realtime state
(no presenter for "S"), and the same join after presenter "P" joined. -/
theorem c8_controller_gating_witness :
    (initRT.presenter_sessions "S" = none) ∧
    ((step initRT (.join_session "C" "S" "controller")).2 =
      [("C", .session_verified false "Session not found")]) ∧
    ("C" ∉ ((step initRT (.join_session "C" "S" "controller")).1).rooms "S") ∧
    ((step (step initRT (.join_session "P" "S" "presenter")).1
        (.join_session "C" "S" "controller")).2 =
      [("C", .session_verified true "Session found")]) :=
  ⟨rfl,
   (c8_controller_gating initRT "C" "S" rfl (by decide)).1,
   (c8_controller_gating initRT "C" "S" rfl (by decide)).2.1,
   ((c8_controller_gating initRT "C" "S" rfl (by decide)).2.2.2
     (step initRT (.join_session "P" "S" "presenter")).1 (by decide)).1⟩

end App
